import Mathlib

/-!
Shallow embedding of the RAM-caching core of `plone.app.caching`
(files `operations/utils.py` and `operations/ramcache.py`).

Modelling conventions:
* Byte strings are `List Nat` (one entry per byte).
* The Zope request/response pair and the component registry are bundled in
  an explicit `PyState` record that the stateful helpers thread through.
* Mappings (response headers, the per-request side table set up through the
  `IAnnotations` adapter, the RAM stores) are partial maps `String → Option _`,
  the canonical model of a Python dict.
* `datetime` values are whole seconds since the Unix epoch (`Int`);
  `datetime.datetime.now()` becomes an explicit `now : Int` parameter.
* Functions looked up through the component registry (the `ICacheChooser`
  utility, the named `IETagValue` multi-adapters) are parameters of the
  embedding, `Option`-valued so that an unregistered component is `none`.
-/

namespace PloneCaching

/-- A byte string (`bytes` in Python), one list entry per byte. -/
abbrev Bytes := List Nat

/-- An ancestor in the `__parent__` chain of a published object.  Each node
records whether it provides `OFS.interfaces.ITraversable`, the value its
`absolute_url_path()` would return, and its own parent. -/
inductive Content where
  | node (traversable : Bool) (absoluteUrlPath : String) (parent : Option Content)

/-- Whether the node provides `ITraversable`. -/
def Content.traversable : Content → Bool
  | .node t _ _ => t

/-- The node's `absolute_url_path()`. -/
def Content.absoluteUrlPath : Content → String
  | .node _ p _ => p

/-- The node's own `__parent__`. -/
def Content.parent : Content → Option Content
  | .node _ _ par => par

/-- The published object handed to the caching helpers.  The code only ever
reads its `__parent__` attribute; `parent = none` covers both a missing
attribute and `__parent__ is None` (both make `ITraversable.providedBy`
false and fall through to the request URL). -/
structure Published where
  parent : Option Content

/-- The Zope request, reduced to the pieces the embedded code reads:
the side table produced by the `IAnnotations` adapter (`annTable = none`
models a request on which no such table is available), the `IRAMCached`
marker interface set by `alsoProvides`, and `request['ACTUAL_URL']`. -/
structure Request where
  annTable : Option (String → Option String)
  markedRAMCached : Bool
  actualURL : String

/-- The Zope response: a numeric status and a header dict.  Zope's
`setHeader` lowercases header names on storage, so lookups in the model use
lowercase keys. -/
structure Response where
  status : Nat
  headers : String → Option String

/-- The triple `(status, headers, body)` stored by
`storeResponseInRAMCache` and returned by `fetchFromRAMCache`. -/
abbrev CachedEntry := Nat × (String → Option String) × Bytes

/-- The component registry, reduced to what the code consults: whether an
`ICacheChooser` utility is registered, and the family of RAM stores the
chooser hands out, one mapping per global key. -/
structure Registry where
  chooserRegistered : Bool
  caches : String → String → Option CachedEntry

/-- The full mutable state threaded through the stateful helpers. -/
structure PyState where
  request : Request
  response : Response
  registry : Registry

/-- Lowercase a header name the way Zope's `setHeader` does before storing. -/
def lowerName (s : String) : String :=
  String.mk (s.data.map Char.toLower)

/-- `response.setHeader(name, value)`: stores under the lowercased name. -/
def Response.setHeader (r : Response) (name value : String) : Response :=
  { r with headers := fun k => if k = lowerName name then some value else r.headers k }

/-- `del response.headers[name]` (the name is already lowercase at the call
site in `doNotCache`). -/
def Response.delHeader (r : Response) (name : String) : Response :=
  { r with headers := fun k => if k = name then none else r.headers k }

/-- Convenience: set a header on the response inside a `PyState`. -/
def setRespHeader (st : PyState) (name value : String) : PyState :=
  { st with response := st.response.setHeader name value }

/-- `PAGE_CACHE_KEY` from `operations/utils.py`. -/
def PAGE_CACHE_KEY : String := "plone.app.caching.operations.pagecache"

/-- `PAGE_CACHE_ANNOTATION_KEY` from `operations/utils.py` (the constant is
renamed here; its value is unchanged). -/
def PAGE_CACHE_ANN_KEY : String := "plone.app.caching.operations.pagecache.key"

/-- `GLOBAL_KEY` from `operations/ramcache.py` (defined there but unused). -/
def GLOBAL_KEY : String := "plone.app.caching.operations.ramcache"

/-!  Date rendering.  `formatDateTime` in `utils.py` delegates to
`wsgiref.handlers.format_date_time`, which renders a Unix timestamp as an
RFC-1123 HTTP date (`Sun, 09 Sep 2001 01:46:40 GMT`).  The renderer is
reimplemented here for nonnegative timestamps (the proleptic pre-1970 range
is never exercised by the theorems below). -/

/-- Zero-pad a number below 100 to two digits (`%02d`). -/
def pad2 (n : Nat) : String :=
  if n < 10 then "0" ++ toString n else toString n

/-- Weekday abbreviations indexed Monday = 0, as in `wsgiref._weekdayname`. -/
def weekdayName : Nat → String
  | 0 => "Mon" | 1 => "Tue" | 2 => "Wed" | 3 => "Thu"
  | 4 => "Fri" | 5 => "Sat" | _ => "Sun"

/-- Month abbreviations indexed 1–12, as in `wsgiref._monthname`. -/
def monthName : Nat → String
  | 1 => "Jan" | 2 => "Feb" | 3 => "Mar" | 4 => "Apr"
  | 5 => "May" | 6 => "Jun" | 7 => "Jul" | 8 => "Aug"
  | 9 => "Sep" | 10 => "Oct" | 11 => "Nov" | _ => "Dec"

/-- Convert a count of days since 1970-01-01 to `(year, month, day)`
(standard civil-from-days calendar computation). -/
def civilFromDays (days : Nat) : Nat × Nat × Nat :=
  let z := days + 719468
  let era := z / 146097
  let doe := z % 146097
  let yoe := (doe - doe / 1460 + doe / 36524 - doe / 146096) / 365
  let y := yoe + era * 400
  let doy := doe - (365 * yoe + yoe / 4 - yoe / 100)
  let mp := (5 * doy + 2) / 153
  let d := doy - (153 * mp + 2) / 5 + 1
  let m := if mp < 10 then mp + 3 else mp - 9
  (if m ≤ 2 then y + 1 else y, m, d)

/-- Render a nonnegative Unix timestamp as an RFC-1123 HTTP date, the
format produced by `wsgiref.handlers.format_date_time`. -/
def formatTimestamp (t : Nat) : String :=
  let days := t / 86400
  let secs := t % 86400
  let ymd := civilFromDays days
  weekdayName ((days + 3) % 7) ++ ", " ++ pad2 ymd.2.2 ++ " " ++
    monthName ymd.2.1 ++ " " ++ toString ymd.1 ++ " " ++
    pad2 (secs / 3600) ++ ":" ++ pad2 ((secs % 3600) / 60) ++ ":" ++
    pad2 (secs % 60) ++ " GMT"

/-- `formatDateTime(dt)` from `utils.py`: render a datetime (modelled as a
timestamp) as an RFC-1123 date string. -/
def formatDateTime (t : Int) : String :=
  formatTimestamp t.toNat

/-- `getExpiration(maxage)` from `utils.py`, with `datetime.datetime.now()`
lifted to the explicit parameter `now`. -/
def getExpiration (now : Int) (maxage : Int) : Int :=
  if maxage > 0 then now + maxage else now - 10 * 365 * 24 * 3600

/-- `getRAMCache(globalKey)` from `utils.py`: query the `ICacheChooser`
utility; if absent return `None`, else hand out the store for `globalKey`. -/
def getRAMCache (reg : Registry) (globalKey : String) :
    Option (String → Option CachedEntry) :=
  if reg.chooserRegistered then some (reg.caches globalKey) else none

/-- `getRAMCacheKey(published, request)` from `utils.py`: if the published
object has a `__parent__` and that parent provides `ITraversable`, return
the parent's `absolute_url_path()`; otherwise return `request['ACTUAL_URL']`. -/
def getRAMCacheKey (published : Published) (request : Request) : String :=
  match published.parent with
  | some content =>
      if content.traversable then content.absoluteUrlPath else request.actualURL
  | none => request.actualURL

/-!  ETag computation (`getETag` in `utils.py`).  The named `IETagValue`
multi-adapters on `(published, request)` are modelled by the parameter
`adapters : String → Option (Published → Request → Option String)`:
`adapters key = none` is an unregistered adapter (the code logs a warning
and skips it), and a registered component may itself return `None`. -/

/-- Python's `sep.join(tokens)`. -/
def pyJoin (sep : String) : List String → String
  | [] => ""
  | [t] => t
  | t :: rest => t ++ sep ++ pyJoin sep rest

/-- Python's `s.replace(',', ';')` (single-character pattern, so it is the
character-wise map). -/
def replaceCommas (s : String) : String :=
  String.mk (s.data.map fun c => if c = ',' then ';' else c)

/-- The first loop of `getETag`: for each key look up the named adapter,
skip it if unregistered (after a logged warning) or if its value is `None`,
otherwise append the value. -/
def collectTokens (published : Published) (request : Request)
    (adapters : String → Option (Published → Request → Option String)) :
    List String → List String
  | [] => []
  | key :: rest =>
      match adapters key with
      | none => collectTokens published request adapters rest
      | some component =>
          match component published request with
          | none => collectTokens published request adapters rest
          | some value => value :: collectTokens published request adapters rest

/-- `getETag(published, request, keys, extraTokens)` from `utils.py`. -/
def getETag (published : Published) (request : Request)
    (adapters : String → Option (Published → Request → Option String))
    (keys extraTokens : List String) : String :=
  let tokens := collectTokens published request adapters keys
  let tokens := tokens ++ extraTokens
  let etag := "|" ++ pyJoin "|" tokens
  replaceCommas etag

/-!  Header policy helpers (the mutators of `utils.py`). -/

/-- `doNotCache(published, request, response)` from `utils.py`. -/
def doNotCache (published : Published) (st : PyState) (now : Int) : PyState :=
  let st1 :=
    if (st.response.headers "last-modified").isSome then
      { st with response := st.response.delHeader "last-modified" }
    else st
  let st2 := setRespHeader st1 "Expires" (formatDateTime (getExpiration now 0))
  setRespHeader st2 "Cache-Control" "max-age=0, must-revalidate, private"

/-- `cacheInBrowser(published, request, response, etag, lastmodified)` from
`utils.py`. -/
def cacheInBrowser (published : Published) (st : PyState) (now : Int)
    (etag : Option String) (lastmodified : Option Int) : PyState :=
  let st1 := match etag with
    | some e => setRespHeader st "ETag" e
    | none => st
  let st2 := match lastmodified with
    | some lm => setRespHeader st1 "Last-Modified" (formatDateTime lm)
    | none => st1
  let st3 := setRespHeader st2 "Expires" (formatDateTime (getExpiration now 0))
  setRespHeader st3 "Cache-Control" "max-age=0, must-revalidate, private"

/-- `cacheInProxy(published, request, response, smaxage, lastmodified, etag,
vary)` from `utils.py`. -/
def cacheInProxy (published : Published) (st : PyState) (now : Int)
    (smaxage : Nat) (lastmodified : Option Int) (etag : Option String)
    (vary : Option String) : PyState :=
  let st1 := match lastmodified with
    | some lm => setRespHeader st "Last-Modified" (formatDateTime lm)
    | none => st
  let st2 := match etag with
    | some e => setRespHeader st1 "ETag" e
    | none => st1
  let st3 := setRespHeader st2 "Expires" (formatDateTime (getExpiration now 0))
  let st4 := setRespHeader st3 "Cache-Control"
    ("max-age=0, s-maxage=" ++ toString smaxage ++ ", must-revalidate")
  match vary with
  | some v => setRespHeader st4 "Vary" v
  | none => st4

/-- `cacheInRAM(published, request, response, key, annotationsKey)` from
`utils.py`: no-op when no side table is available; otherwise record the
cache key (computed by `getRAMCacheKey` when not supplied) under `annKey`
and mark the request with the `IRAMCached` interface. -/
def cacheInRAM (published : Published) (st : PyState) (key : Option String)
    (annKey : String) : PyState :=
  match st.request.annTable with
  | none => st
  | some tbl =>
      let k := match key with
        | none => getRAMCacheKey published st.request
        | some k => k
      { st with request := { st.request with
          annTable := some (fun a => if a = annKey then some k else tbl a),
          markedRAMCached := true } }

/-- `fetchFromRAMCache(published, request, response, key, globalKey)` from
`utils.py`.  The state is returned alongside the result to make the
function's (absent) effects explicit. -/
def fetchFromRAMCache (published : Published) (st : PyState)
    (key : Option String) (globalKey : String) : Option CachedEntry × PyState :=
  match getRAMCache st.registry globalKey with
  | none => (none, st)
  | some cache =>
      let k := match key with
        | none => getRAMCacheKey published st.request
        | some k => k
      if k = "" then (none, st) else (cache k, st)

/-- `storeResponseInRAMCache(published, request, response, result,
globalKey, annotationsKey)` from `utils.py`: read the cache key from the
request's side table (no-op when the table, the key, or the chooser is
absent, or the key is empty), then store
`(response status, snapshot of the headers, result)` under it. -/
def storeResponseInRAMCache (published : Published) (st : PyState)
    (result : Bytes) (globalKey annKey : String) : PyState :=
  match st.request.annTable with
  | none => st
  | some tbl =>
      match tbl annKey with
      | none => st
      | some key =>
          if key = "" then st
          else
            match getRAMCache st.registry globalKey with
            | none => st
            | some cache =>
                let status := st.response.status
                let headers := st.response.headers
                { st with registry := { st.registry with
                    caches := fun g =>
                      if g = globalKey then
                        fun k => if k = key then some (status, headers, result)
                                 else cache k
                      else st.registry.caches g } }

/-!  The `Store` transform of `operations/ramcache.py`.

Each `transform*` method guards on
`self.responseIsSuccess() and IRAMCached.providedBy(self.request)` and, when
the guard holds, calls `storeResponseInRAMCache(self.request,
self.request.response, body)` — three positional arguments.  The imported
`utils.storeResponseInRAMCache` however declares four required positional
parameters `(published, request, response, result, ...)`, so in this
revision of the repository that call raises
`TypeError: storeResponseInRAMCache() missing 1 required positional
argument: 'result'` before the function body runs: nothing is written and
the exception propagates out of the transform.  The embedding returns
`Except.error storeArityErr` (paired with the unchanged state) for that
path; when the guard fails, the method returns `None` normally. -/

/-- The `TypeError` raised by the three-argument call in `ramcache.py`. -/
def storeArityErr : String :=
  "TypeError: storeResponseInRAMCache() missing 1 required positional argument"

/-- `Store.responseIsSuccess` from `ramcache.py`. -/
def Store.responseIsSuccess (st : PyState) : Bool :=
  st.response.status == 200

/-- `Store.transformUnicode` from `ramcache.py`.  (On the error path the
argument `result.encode(encoding)` is evaluated and then discarded, because
binding the call's arguments fails.) -/
def Store.transformUnicode (st : PyState) (result : String)
    (encoding : String) : Except String (Option Bytes) × PyState :=
  if Store.responseIsSuccess st && st.request.markedRAMCached then
    (Except.error storeArityErr, st)
  else (Except.ok none, st)

/-- `Store.transformBytes` from `ramcache.py`. -/
def Store.transformBytes (st : PyState) (result : Bytes)
    (encoding : String) : Except String (Option Bytes) × PyState :=
  if Store.responseIsSuccess st && st.request.markedRAMCached then
    (Except.error storeArityErr, st)
  else (Except.ok none, st)

/-- `Store.transformIterable` from `ramcache.py`.  On the guarded path the
code first concatenates the chunks (`b"".join(result)`) and then makes the
same three-argument call, so the joined bytes are computed but never
returned or stored. -/
def Store.transformIterable (st : PyState) (result : List Bytes)
    (encoding : String) : Except String (Option Bytes) × PyState :=
  if Store.responseIsSuccess st && st.request.markedRAMCached then
    (Except.error storeArityErr, st)
  else (Except.ok none, st)

/-!  Spec-side key derivation, for comparison with `getRAMCacheKey`. -/

/-- The ancestor walk described by the spec: the path of the first node in
the chain that is traversable, if any. -/
def Content.nearestTraversable : Content → Option String
  | .node true p _ => some p
  | .node false _ none => none
  | .node false _ (some c) => c.nearestTraversable

/-- `deriveCacheKey` as the spec words it: walk up the published resource's
ancestor chain to the nearest traversable ancestor and return its absolute
path; if no traversable ancestor exists, return the request's raw
actual-URL string. -/
def deriveCacheKeySpec (published : Published) (request : Request) : String :=
  match published.parent with
  | none => request.actualURL
  | some c => (c.nearestTraversable).getD request.actualURL

/-- The amended description of the key derivation: only the immediate
parent is examined — its path if it is traversable, the raw actual URL
otherwise. -/
def deriveCacheKeyImmediate (published : Published) (request : Request) : String :=
  match published.parent with
  | some c => if c.traversable then c.absoluteUrlPath else request.actualURL
  | none => request.actualURL

/-!  Concrete fixtures used by the closed theorems below. -/

/-- `b"hello"`. -/
def helloBytes : Bytes := [104, 101, 108, 108, 111]

/-- A published object without a usable parent. -/
def c1Pub : Published := ⟨none⟩

/-- Initial state for the round-trip scenario: empty side table available,
no marker yet, chooser registered, empty cache, response status 200. -/
def c1St0 : PyState where
  request :=
    { annTable := some (fun _ => none), markedRAMCached := false,
      actualURL := "http://example.org/page" }
  response := { status := 200, headers := fun _ => none }
  registry := { chooserRegistered := true, caches := fun _ _ => none }

/-- The round-trip state after `cacheInRAM` was called with key "k". -/
def c1St1 : PyState := cacheInRAM c1Pub c1St0 (some "k") PAGE_CACHE_ANN_KEY

/-- State for the chunked-capture scenario: capture was requested with key
"k", status is 200, chooser registered, cache empty. -/
def c6St : PyState where
  request :=
    { annTable := some (fun a => if a = PAGE_CACHE_ANN_KEY then some "k" else none),
      markedRAMCached := true, actualURL := "http://example.org/page" }
  response := { status := 200, headers := fun _ => none }
  registry := { chooserRegistered := true, caches := fun _ _ => none }

/-- `[b"ab", b"cd", b"ef"]`. -/
def abcdefChunks : List Bytes := [[97, 98], [99, 100], [101, 102]]

/-- A state whose response is a 404 although capture was requested. -/
def st404 : PyState where
  request :=
    { annTable := some (fun a => if a = PAGE_CACHE_ANN_KEY then some "k" else none),
      markedRAMCached := true, actualURL := "http://example.org/missing" }
  response := { status := 404, headers := fun _ => none }
  registry := { chooserRegistered := true, caches := fun _ _ => none }

/-- A published object whose immediate parent is not traversable but whose
grandparent is traversable with path "/site". -/
def c3Pub : Published :=
  ⟨some (.node false "/intermediate" (some (.node true "/site" none)))⟩

/-- A request with a fixed actual URL. -/
def c3Req : Request where
  annTable := none
  markedRAMCached := false
  actualURL := "http://example.org/page"

/-- A published object for the header-policy scenarios. -/
def c4Pub : Published := ⟨none⟩

/-- A plain state with no headers set yet. -/
def c4St : PyState where
  request :=
    { annTable := none, markedRAMCached := false,
      actualURL := "http://example.org/page" }
  response := { status := 200, headers := fun _ => none }
  registry := { chooserRegistered := false, caches := fun _ _ => none }

/-- A published object for the configuration-absence scenario. -/
def c7Pub : Published := ⟨none⟩

/-- A state in which no `ICacheChooser` utility is registered. -/
def noChooserSt : PyState where
  request :=
    { annTable := some (fun _ => none), markedRAMCached := false,
      actualURL := "http://example.org/a" }
  response := { status := 200, headers := fun _ => none }
  registry := { chooserRegistered := false, caches := fun _ _ => none }

/-- `b"x"`, a body for the configuration-absence scenario. -/
def xBytes : Bytes := [120]

/-!  Theorems settling the claims. -/

/-- C1: the claimed store/fetch round trip (mark for capture, render status
200 with body `b"hello"`, run `Store.transformBytes`, fetch with the same
key and namespace) does not hold in this revision: the transform's call to
`storeResponseInRAMCache` passes three positional arguments to a function
with four required positional parameters, so it raises a `TypeError` and
nothing is written; the subsequent fetch misses instead of returning
`(200, headers, b"hello")`. -/
theorem ramcache_roundtrip_eval :
    (Store.transformBytes c1St1 helloBytes "utf-8").1 = Except.error storeArityErr ∧
    (fetchFromRAMCache c1Pub (Store.transformBytes c1St1 helloBytes "utf-8").2
      (some "k") PAGE_CACHE_KEY).1 = none :=
  ⟨rfl, rfl⟩

/-- C2: the capture stage writes to the RAM store only when the response
status is exactly 200 and the request carries the `IRAMCached` marker:
whenever either condition fails, all three transform methods return `None`
and leave the whole state — in particular every RAM store — unchanged. -/
theorem capture_only_when_success_and_marked (st : PyState) (txt : String)
    (raw : Bytes) (chunks : List Bytes) (encoding : String)
    (h : st.response.status ≠ 200 ∨ st.request.markedRAMCached = false) :
    Store.transformUnicode st txt encoding = (Except.ok none, st) ∧
    Store.transformBytes st raw encoding = (Except.ok none, st) ∧
    Store.transformIterable st chunks encoding = (Except.ok none, st) := by
  have hg : (Store.responseIsSuccess st && st.request.markedRAMCached) = false := by
    rcases h with h | h
    · simp [Store.responseIsSuccess, beq_eq_false_iff_ne.mpr h]
    · simp [h]
  refine ⟨?_, ?_, ?_⟩ <;>
    simp [Store.transformUnicode, Store.transformBytes, Store.transformIterable, hg]

/-- Witness for C2: a 404 response with capture requested is not stored. -/
theorem capture_only_when_success_and_marked_witness :
    st404.response.status ≠ 200 ∧
    Store.transformBytes st404 helloBytes "utf-8" = (Except.ok none, st404) :=
  ⟨by decide,
    (capture_only_when_success_and_marked st404 "hello" helloBytes abcdefChunks
      "utf-8" (Or.inl (by decide))).2.1⟩

/-- C3 counterexample: on a resource whose immediate parent is not
traversable but whose grandparent is (with path "/site"), the claimed
ancestor walk would return "/site", yet `getRAMCacheKey` returns the
request's actual URL — the code never looks past the immediate parent. -/
theorem derive_key_walk_counterexample :
    getRAMCacheKey c3Pub c3Req ≠ deriveCacheKeySpec c3Pub c3Req := by
  decide

/-- C3 amended: `getRAMCacheKey` examines only the immediate parent of the
published resource — if a parent exists and is traversable it returns that
parent's absolute path, otherwise (no parent, or a non-traversable parent,
even when a more distant ancestor is traversable) it returns the request's
raw actual-URL string. -/
theorem derive_key_immediate_parent (published : Published) (request : Request) :
    getRAMCacheKey published request = deriveCacheKeyImmediate published request := by
  rcases published with ⟨par⟩
  cases par with
  | none => rfl
  | some c =>
      cases c with
      | node t p rest => cases t <;> rfl

/-- C4 counterexample: at `now = 1000000000` neither `cacheInBrowser`
without validators nor `cacheInProxy` sets the `Expires` header to the
current time; both set the ten-years-earlier forced-expiry date, because
they render `getExpiration(0)`, which takes the `maxage ≤ 0` branch. -/
theorem expires_now_counterexample :
    (cacheInBrowser c4Pub c4St 1000000000 none none).response.headers "expires" ≠
      some (formatDateTime 1000000000) ∧
    (cacheInProxy c4Pub c4St 1000000000 60 none none none).response.headers "expires" ≠
      some (formatDateTime 1000000000) := by
  constructor <;> decide

/-- C4 amended: `cacheInBrowser` (no-validator case) and `cacheInProxy`
both set the `Expires` header to now minus ten years — the deliberately
expired timestamp produced by `getExpiration(0)` — rendered in RFC-1123
format. -/
theorem expires_forced_expired (published : Published) (st : PyState)
    (now : Int) (smaxage : Nat) (lastmodified : Option Int)
    (etag vary : Option String) :
    (cacheInBrowser published st now none none).response.headers "expires" =
      some (formatDateTime (now - 10 * 365 * 24 * 3600)) ∧
    (cacheInProxy published st now smaxage lastmodified etag
        vary).response.headers "expires" =
      some (formatDateTime (now - 10 * 365 * 24 * 3600)) := by
  have hcc : lowerName "Cache-Control" = "cache-control" := by decide
  have hex : lowerName "Expires" = "expires" := by decide
  have hv : lowerName "Vary" = "vary" := by decide
  have het : lowerName "ETag" = "etag" := by decide
  have hlm : lowerName "Last-Modified" = "last-modified" := by decide
  constructor
  · simp [cacheInBrowser, setRespHeader, Response.setHeader, hcc, hex,
      getExpiration]
  · rcases vary with _ | v <;> rcases etag with _ | e <;>
      rcases lastmodified with _ | lm <;>
      simp [cacheInProxy, setRespHeader, Response.setHeader, hcc, hex, hv,
        het, hlm, getExpiration]

/-- C5: `getETag` joins the collected tokens with pipes, prefixes a pipe,
and replaces commas with semicolons, with the adapter-provided tokens
coming before the extra tokens: with no keys and no extra tokens it yields
exactly "|", and with no keys and extra tokens `["a,b", "c"]` it yields
"|a;b|c". -/
theorem getETag_format (published : Published) (request : Request)
    (adapters : String → Option (Published → Request → Option String)) :
    getETag published request adapters [] [] = "|" ∧
    getETag published request adapters [] ["a,b", "c"] = "|a;b|c" ∧
    ∀ keys extraTokens, getETag published request adapters keys extraTokens =
      replaceCommas ("|" ++ pyJoin "|"
        (collectTokens published request adapters keys ++ extraTokens)) :=
  ⟨rfl, rfl, fun _ _ => rfl⟩

/-- C6: the claimed chunked-body capture (replacement output `b"abcdef"`
and stored body `b"abcdef"`) does not hold in this revision: when the
guard passes, `Store.transformIterable` joins the chunks and then makes the
same arity-mismatched call to `storeResponseInRAMCache`, so it raises a
`TypeError`; neither the concatenation is returned nor anything stored. -/
theorem chunked_capture_eval :
    (Store.transformIterable c6St abcdefChunks "utf-8").1 =
      Except.error storeArityErr ∧
    (Store.transformIterable c6St abcdefChunks "utf-8").2 = c6St :=
  ⟨rfl, rfl⟩

/-- C7: every configuration absence degrades silently — with no chooser
registered, `fetchFromRAMCache` returns `None` and
`storeResponseInRAMCache` leaves the state unchanged; with no side table,
or a missing or empty stored key, the store is a no-op; a fetch with an
empty key is always a miss.  (All embedded functions are total, so none of
these paths can raise.) -/
theorem config_absence_noop (published : Published) (st : PyState)
    (key : Option String) (globalKey annKey : String) (body : Bytes) :
    (st.registry.chooserRegistered = false →
      (fetchFromRAMCache published st key globalKey).1 = none ∧
      storeResponseInRAMCache published st body globalKey annKey = st) ∧
    (st.request.annTable = none →
      storeResponseInRAMCache published st body globalKey annKey = st) ∧
    (∀ tbl, st.request.annTable = some tbl → tbl annKey = none →
      storeResponseInRAMCache published st body globalKey annKey = st) ∧
    (∀ tbl, st.request.annTable = some tbl → tbl annKey = some "" →
      storeResponseInRAMCache published st body globalKey annKey = st) ∧
    (fetchFromRAMCache published st (some "") globalKey).1 = none := by
  refine ⟨?_, ?_, ?_, ?_, ?_⟩
  · intro h
    refine ⟨by simp [fetchFromRAMCache, getRAMCache, h], ?_⟩
    cases hA : st.request.annTable with
    | none => simp [storeResponseInRAMCache, hA]
    | some tbl =>
        cases hK : tbl annKey with
        | none => simp [storeResponseInRAMCache, hA, hK]
        | some k => simp [storeResponseInRAMCache, hA, hK, getRAMCache, h]
  · intro h
    simp [storeResponseInRAMCache, h]
  · intro tbl hA hK
    simp [storeResponseInRAMCache, hA, hK]
  · intro tbl hA hK
    simp [storeResponseInRAMCache, hA, hK]
  · unfold fetchFromRAMCache
    cases getRAMCache st.registry globalKey with
    | none => rfl
    | some cache => simp

/-- Witness for C7: in a concrete state without a registered chooser, the
fetch misses and the store changes nothing. -/
theorem config_absence_noop_witness :
    noChooserSt.registry.chooserRegistered = false ∧
    ((fetchFromRAMCache c7Pub noChooserSt none PAGE_CACHE_KEY).1 = none ∧
      storeResponseInRAMCache c7Pub noChooserSt xBytes PAGE_CACHE_KEY
        PAGE_CACHE_ANN_KEY = noChooserSt) :=
  ⟨rfl,
    (config_absence_noop c7Pub noChooserSt none PAGE_CACHE_KEY
      PAGE_CACHE_ANN_KEY xBytes).1 rfl⟩

/-- C8: `getExpiration` returns `now + maxage` for positive `maxage` and a
timestamp exactly `10 * 365 * 24 * 3600` seconds in the past otherwise. -/
theorem getExpiration_spec (now maxage : Int) :
    (0 < maxage → getExpiration now maxage = now + maxage) ∧
    (maxage ≤ 0 → getExpiration now maxage = now - 10 * 365 * 24 * 3600) := by
  constructor
  · intro h
    unfold getExpiration
    rw [if_pos h]
  · intro h
    unfold getExpiration
    rw [if_neg (by omega)]

/-- Witness for C8 at `maxage = 5` and `maxage = 0`. -/
theorem getExpiration_spec_witness :
    getExpiration 1000 5 = 1000 + 5 ∧
    getExpiration 1000 0 = 1000 - 10 * 365 * 24 * 3600 :=
  ⟨(getExpiration_spec 1000 5).1 (by decide),
    (getExpiration_spec 1000 0).2 (by decide)⟩

/-- C9: `doNotCache` removes any pre-existing `Last-Modified` header, sets
`Expires` to the RFC-1123 rendering of now minus ten years, and sets
`Cache-Control` to exactly "max-age=0, must-revalidate, private". -/
theorem doNotCache_headers (published : Published) (st : PyState) (now : Int) :
    (doNotCache published st now).response.headers "last-modified" = none ∧
    (doNotCache published st now).response.headers "expires" =
      some (formatDateTime (now - 10 * 365 * 24 * 3600)) ∧
    (doNotCache published st now).response.headers "cache-control" =
      some "max-age=0, must-revalidate, private" := by
  have hcc : lowerName "Cache-Control" = "cache-control" := by decide
  have hex : lowerName "Expires" = "expires" := by decide
  refine ⟨?_, ?_, ?_⟩
  · by_cases hlm : (st.response.headers "last-modified").isSome
    · simp [doNotCache, setRespHeader, Response.setHeader, Response.delHeader,
        hcc, hex, hlm]
    · simp [doNotCache, setRespHeader, Response.setHeader, Response.delHeader,
        hcc, hex, hlm, Option.not_isSome_iff_eq_none.mp hlm]
  · simp [doNotCache, setRespHeader, Response.setHeader, hcc, hex,
      getExpiration]
  · simp [doNotCache, setRespHeader, Response.setHeader, hcc, hex]

/-- C10: `fetchFromRAMCache` is a pure read — on every call (hit, miss, or
absent chooser/key) it returns the state unchanged; in particular the
response status, the response headers, and the request's side table are
those of the input state. -/
theorem fetch_pure_read (published : Published) (st : PyState)
    (key : Option String) (globalKey : String) :
    (fetchFromRAMCache published st key globalKey).2 = st ∧
    (fetchFromRAMCache published st key globalKey).2.response.status =
      st.response.status ∧
    (fetchFromRAMCache published st key globalKey).2.response.headers =
      st.response.headers ∧
    (fetchFromRAMCache published st key globalKey).2.request.annTable =
      st.request.annTable := by
  have h : (fetchFromRAMCache published st key globalKey).2 = st := by
    unfold fetchFromRAMCache
    cases getRAMCache st.registry globalKey with
    | none => rfl
    | some cache =>
        rcases key with _ | k <;> dsimp only <;> split <;> rfl
  exact ⟨h, by rw [h], by rw [h], by rw [h]⟩

end PloneCaching
